import Mathlib

/-!
Verification of the mind_transfer_hook transfer-policy evaluator.

The definitions below are a shallow embedding of the Rust sources under
programs/mind_transfer_hook/src: state.rs (the account records), error.rs
(the rejection codes), ix/evaluate.rs (the decision procedure `handler`)
and utils.rs (the caller-identity resolver `prev_program_id`).
Environment reads performed inside the Rust handler (the clock sysvar and
the resolved caller identity) become explicit parameters, and the
`Result<(), ErrorCode>` outcome becomes the closed sum type `Verdict`.
-/

namespace MindTransferHook

/-- Account identities (Solana Pubkeys) are modelled as natural numbers:
the policy only compares them for equality. -/
abbrev Pubkey := Nat

/-- state.rs: `Policy { bump, paused }`. -/
structure Policy where
  bump : Nat
  paused : Bool
deriving DecidableEq, Repr

/-- state.rs: `Unlock { bump, unlock_ts: i64 }`. -/
structure Unlock where
  bump : Nat
  unlock_ts : Int
deriving DecidableEq, Repr

/-- state.rs: `Exempt { bump, roles: u8 }` — bitmask of roles. -/
structure Exempt where
  bump : Nat
  roles : Nat
deriving DecidableEq, Repr

/-- state.rs: `Exempt::any`, true when the roles mask is non-zero. -/
def Exempt.any (e : Exempt) : Bool := e.roles != 0

/-- state.rs: `AllowedProgram { bump, program_id }`. -/
structure AllowedProgram where
  bump : Nat
  program_id : Pubkey
deriving DecidableEq, Repr

/-- state.rs: `PoolVault { bump, token_account }`. -/
structure PoolVault where
  bump : Nat
  token_account : Pubkey
deriving DecidableEq, Repr

/-- The clock sysvar value read by the handler (`Clock::get()`). -/
structure Clock where
  unix_timestamp : Int
deriving DecidableEq, Repr

/-- error.rs: the three policy rejection codes. -/
inductive ErrorCode where
  | Paused
  | SellsDisabled
  | ProgramNotAllowed
deriving DecidableEq, Repr

/-- The handler outcome: `Ok(())` or `err!(code)`. -/
inductive Verdict where
  | ok
  | err (e : ErrorCode)
deriving DecidableEq, Repr

/-- ix/evaluate.rs: `handler`. Decision procedure over the policy records,
the two token accounts of the transfer, the clock, the resolved caller
identity and the (unused) amount. -/
def handler (policy : Policy) (unlock : Unlock)
    (exempt_from exempt_to : Exempt)
    (allowed_program : AllowedProgram) (pool_vault : PoolVault)
    (from_token_account to_token_account : Pubkey)
    (clock : Clock) (caller : Option Pubkey) (_amount : Nat) : Verdict :=
  if policy.paused && !exempt_from.any then .err .Paused
  else if exempt_from.any || exempt_to.any then .ok
  else if clock.unix_timestamp < unlock.unlock_ts then
    let to_is_vault := to_token_account == pool_vault.token_account
    let from_is_vault := from_token_account == pool_vault.token_account
    if to_is_vault then .err .SellsDisabled
    else if from_is_vault then
      match caller with
      | some c => if c == allowed_program.program_id then .ok
                  else .err .ProgramNotAllowed
      | none => .err .ProgramNotAllowed
    else if caller.isNone then .ok
    else .err .ProgramNotAllowed
  else .ok

/-- An instruction of the transaction log, as far as the resolver looks at
it: only its issuing program identity. -/
structure Instruction where
  program_id : Pubkey
deriving DecidableEq, Repr

/-- utils.rs: `prev_program_id`. The sysvar reads
`load_current_index_checked` and `load_instruction_at_checked` are
modelled as oracle inputs: the loaded current index (`none` when the load
fails) and the instruction lookup (`none` when the lookup fails). -/
def prev_program_id (currentIndex : Option Nat)
    (loadInstructionAt : Nat → Option Instruction) : Option Pubkey :=
  match currentIndex with
  | some idx =>
      if idx = 0 then none
      else
        match loadInstructionAt (idx - 1) with
        | some prev => some prev.program_id
        | none => none
  | none => none

/-- C1: with paused = false, neither exemption mask non-zero, now before
the unlock timestamp and the destination equal to the pool vault token
account, the verdict is Reject(SellsDisabled) for every source account and
every caller identity. -/
theorem sell_blocked_while_locked
    (policy : Policy) (unlock : Unlock) (exempt_from exempt_to : Exempt)
    (allowed_program : AllowedProgram) (pool_vault : PoolVault)
    (src dst : Pubkey) (clock : Clock) (caller : Option Pubkey) (amount : Nat)
    (hp : policy.paused = false)
    (hef : exempt_from.roles = 0) (het : exempt_to.roles = 0)
    (hlt : clock.unix_timestamp < unlock.unlock_ts)
    (hdst : dst = pool_vault.token_account) :
    handler policy unlock exempt_from exempt_to allowed_program pool_vault
      src dst clock caller amount = Verdict.err ErrorCode.SellsDisabled := by
  simp [handler, Exempt.any, hp, hef, het, hlt, hdst]

theorem sell_blocked_while_locked_witness :
    handler ⟨0, false⟩ ⟨0, 10⟩ ⟨0, 0⟩ ⟨0, 0⟩ ⟨0, 5⟩ ⟨0, 7⟩
      1 7 ⟨0⟩ (some 5) 3 = Verdict.err ErrorCode.SellsDisabled :=
  sell_blocked_while_locked ⟨0, false⟩ ⟨0, 10⟩ ⟨0, 0⟩ ⟨0, 0⟩ ⟨0, 5⟩ ⟨0, 7⟩
    1 7 ⟨0⟩ (some 5) 3 rfl rfl rfl (by decide) rfl

/-- C2: with paused = false, neither side exempt, now before the unlock
timestamp, the source equal to the pool vault token account and the
destination different from it, the verdict is Allow exactly when the
resolved caller is Some of the configured allowed-program identity, and
Reject(ProgramNotAllowed) for Some of any other identity or for None. -/
theorem buy_requires_allowed_program
    (policy : Policy) (unlock : Unlock) (exempt_from exempt_to : Exempt)
    (allowed_program : AllowedProgram) (pool_vault : PoolVault)
    (src dst : Pubkey) (clock : Clock) (caller : Option Pubkey) (amount : Nat)
    (hp : policy.paused = false)
    (hef : exempt_from.roles = 0) (het : exempt_to.roles = 0)
    (hlt : clock.unix_timestamp < unlock.unlock_ts)
    (hsrc : src = pool_vault.token_account)
    (hdst : dst ≠ pool_vault.token_account) :
    handler policy unlock exempt_from exempt_to allowed_program pool_vault
      src dst clock caller amount =
      (match caller with
       | some c =>
           if c = allowed_program.program_id then Verdict.ok
           else Verdict.err ErrorCode.ProgramNotAllowed
       | none => Verdict.err ErrorCode.ProgramNotAllowed) := by
  cases caller with
  | none => simp [handler, Exempt.any, hp, hef, het, hlt, hsrc, hdst]
  | some c =>
      by_cases hc : c = allowed_program.program_id <;>
        simp [handler, Exempt.any, hp, hef, het, hlt, hsrc, hdst, hc]

theorem buy_requires_allowed_program_witness :
    handler ⟨0, false⟩ ⟨0, 10⟩ ⟨0, 0⟩ ⟨0, 0⟩ ⟨0, 5⟩ ⟨0, 7⟩
      7 2 ⟨0⟩ (some 5) 3 =
      (match (some 5 : Option Pubkey) with
       | some c =>
           if c = (5 : Pubkey) then Verdict.ok
           else Verdict.err ErrorCode.ProgramNotAllowed
       | none => Verdict.err ErrorCode.ProgramNotAllowed) :=
  buy_requires_allowed_program ⟨0, false⟩ ⟨0, 10⟩ ⟨0, 0⟩ ⟨0, 0⟩ ⟨0, 5⟩ ⟨0, 7⟩
    7 2 ⟨0⟩ (some 5) 3 rfl rfl rfl (by decide) rfl (by decide)

/-- C3: with paused = false, neither side exempt, now before the unlock
timestamp and neither endpoint equal to the pool vault token account, the
verdict is Allow when the resolved caller is None and
Reject(ProgramNotAllowed) when it is Some of any program identity. -/
theorem p2p_requires_no_caller
    (policy : Policy) (unlock : Unlock) (exempt_from exempt_to : Exempt)
    (allowed_program : AllowedProgram) (pool_vault : PoolVault)
    (src dst : Pubkey) (clock : Clock) (caller : Option Pubkey) (amount : Nat)
    (hp : policy.paused = false)
    (hef : exempt_from.roles = 0) (het : exempt_to.roles = 0)
    (hlt : clock.unix_timestamp < unlock.unlock_ts)
    (hsrc : src ≠ pool_vault.token_account)
    (hdst : dst ≠ pool_vault.token_account) :
    handler policy unlock exempt_from exempt_to allowed_program pool_vault
      src dst clock caller amount =
      (match caller with
       | none => Verdict.ok
       | some _ => Verdict.err ErrorCode.ProgramNotAllowed) := by
  cases caller with
  | none => simp [handler, Exempt.any, hp, hef, het, hlt, hsrc, hdst]
  | some c => simp [handler, Exempt.any, hp, hef, het, hlt, hsrc, hdst]

theorem p2p_requires_no_caller_witness :
    handler ⟨0, false⟩ ⟨0, 10⟩ ⟨0, 0⟩ ⟨0, 0⟩ ⟨0, 5⟩ ⟨0, 7⟩
      1 2 ⟨0⟩ none 3 =
      (match (none : Option Pubkey) with
       | none => Verdict.ok
       | some _ => Verdict.err ErrorCode.ProgramNotAllowed) :=
  p2p_requires_no_caller ⟨0, false⟩ ⟨0, 10⟩ ⟨0, 0⟩ ⟨0, 0⟩ ⟨0, 5⟩ ⟨0, 7⟩
    1 2 ⟨0⟩ none 3 rfl rfl rfl (by decide) (by decide) (by decide)

/-- C4 counterexample: with paused = true, the source mask zero and the
destination mask non-zero, a locked evaluation yields Reject(Paused), not
Allow — the claim that either-side exemption gives Allow regardless of the
paused flag fails at this input. -/
theorem exemption_lock_override_counterexample :
    ((0 : Int) < 10 ∧ (1 : Nat) ≠ 0) ∧
    handler ⟨0, true⟩ ⟨0, 10⟩ ⟨0, 0⟩ ⟨0, 1⟩ ⟨0, 5⟩ ⟨0, 7⟩
      1 2 ⟨0⟩ none 3 ≠ Verdict.ok := by decide

/-- C4 amended: with now before the unlock timestamp, if the source mask is
non-zero, or the destination mask is non-zero and paused = false, the
verdict is Allow — regardless of caller identity and of whether either
endpoint is the pool vault. -/
theorem exemption_overrides_lock
    (policy : Policy) (unlock : Unlock) (exempt_from exempt_to : Exempt)
    (allowed_program : AllowedProgram) (pool_vault : PoolVault)
    (src dst : Pubkey) (clock : Clock) (caller : Option Pubkey) (amount : Nat)
    (hlt : clock.unix_timestamp < unlock.unlock_ts)
    (hex : exempt_from.roles ≠ 0 ∨
           (policy.paused = false ∧ exempt_to.roles ≠ 0)) :
    handler policy unlock exempt_from exempt_to allowed_program pool_vault
      src dst clock caller amount = Verdict.ok := by
  rcases hex with hef | ⟨hp, het⟩
  · simp [handler, Exempt.any, hef]
  · simp [handler, Exempt.any, hp, het]

theorem exemption_overrides_lock_witness :
    handler ⟨0, true⟩ ⟨0, 10⟩ ⟨0, 2⟩ ⟨0, 0⟩ ⟨0, 5⟩ ⟨0, 7⟩
      1 7 ⟨0⟩ (some 9) 3 = Verdict.ok :=
  exemption_overrides_lock ⟨0, true⟩ ⟨0, 10⟩ ⟨0, 2⟩ ⟨0, 0⟩ ⟨0, 5⟩ ⟨0, 7⟩
    1 7 ⟨0⟩ (some 9) 3 (by decide) (Or.inl (by decide))

/-- C5: with paused = true and the source mask zero, the verdict is
Reject(Paused) for every destination (the pool vault included), every
caller identity and every time, before or after unlock. -/
theorem pause_precedence
    (policy : Policy) (unlock : Unlock) (exempt_from exempt_to : Exempt)
    (allowed_program : AllowedProgram) (pool_vault : PoolVault)
    (src dst : Pubkey) (clock : Clock) (caller : Option Pubkey) (amount : Nat)
    (hp : policy.paused = true) (hef : exempt_from.roles = 0) :
    handler policy unlock exempt_from exempt_to allowed_program pool_vault
      src dst clock caller amount = Verdict.err ErrorCode.Paused := by
  simp [handler, Exempt.any, hp, hef]

theorem pause_precedence_witness :
    handler ⟨0, true⟩ ⟨0, 10⟩ ⟨0, 0⟩ ⟨0, 0⟩ ⟨0, 5⟩ ⟨0, 7⟩
      1 7 ⟨20⟩ (some 5) 3 = Verdict.err ErrorCode.Paused :=
  pause_precedence ⟨0, true⟩ ⟨0, 10⟩ ⟨0, 0⟩ ⟨0, 0⟩ ⟨0, 5⟩ ⟨0, 7⟩
    1 7 ⟨20⟩ (some 5) 3 rfl rfl

/-- C6: with paused = false, both exemption masks zero and now at or after
the unlock timestamp, the verdict is Allow for every source, destination
and caller identity. -/
theorem full_unlock
    (policy : Policy) (unlock : Unlock) (exempt_from exempt_to : Exempt)
    (allowed_program : AllowedProgram) (pool_vault : PoolVault)
    (src dst : Pubkey) (clock : Clock) (caller : Option Pubkey) (amount : Nat)
    (hp : policy.paused = false)
    (hef : exempt_from.roles = 0) (het : exempt_to.roles = 0)
    (hge : unlock.unlock_ts ≤ clock.unix_timestamp) :
    handler policy unlock exempt_from exempt_to allowed_program pool_vault
      src dst clock caller amount = Verdict.ok := by
  simp [handler, Exempt.any, hp, hef, het, not_lt.mpr hge]

theorem full_unlock_witness :
    handler ⟨0, false⟩ ⟨0, 10⟩ ⟨0, 0⟩ ⟨0, 0⟩ ⟨0, 5⟩ ⟨0, 7⟩
      1 7 ⟨10⟩ (some 9) 3 = Verdict.ok :=
  full_unlock ⟨0, false⟩ ⟨0, 10⟩ ⟨0, 0⟩ ⟨0, 0⟩ ⟨0, 5⟩ ⟨0, 7⟩
    1 7 ⟨10⟩ (some 9) 3 rfl rfl rfl (by decide)

/-- C8: with paused = true, the source mask zero and the destination mask
non-zero, the verdict is still Reject(Paused): destination exemption does
not override pause, because the pause check consults only the source-side
mask and runs first. -/
theorem dest_exemption_no_pause_override
    (policy : Policy) (unlock : Unlock) (exempt_from exempt_to : Exempt)
    (allowed_program : AllowedProgram) (pool_vault : PoolVault)
    (src dst : Pubkey) (clock : Clock) (caller : Option Pubkey) (amount : Nat)
    (hp : policy.paused = true) (hef : exempt_from.roles = 0)
    (het : exempt_to.roles ≠ 0) :
    handler policy unlock exempt_from exempt_to allowed_program pool_vault
      src dst clock caller amount = Verdict.err ErrorCode.Paused := by
  simp [handler, Exempt.any, hp, hef]

theorem dest_exemption_no_pause_override_witness :
    handler ⟨0, true⟩ ⟨0, 10⟩ ⟨0, 0⟩ ⟨0, 3⟩ ⟨0, 5⟩ ⟨0, 7⟩
      1 2 ⟨0⟩ none 3 = Verdict.err ErrorCode.Paused :=
  dest_exemption_no_pause_override ⟨0, true⟩ ⟨0, 10⟩ ⟨0, 0⟩ ⟨0, 3⟩ ⟨0, 5⟩ ⟨0, 7⟩
    1 2 ⟨0⟩ none 3 rfl rfl (by decide)

/-- A concrete one-instruction log used to instantiate the resolver
characterization: index 0 holds an instruction issued by program 77. -/
def exampleLog : Nat → Option Instruction :=
  fun n => if n = 0 then some ⟨77⟩ else none

/-- C7: the resolver returns None when the loaded current index is 0 and
when the current index cannot be loaded; for a positive current index k it
returns the program identity of the instruction loaded at k - 1 when that
lookup succeeds and None when it fails (the Option.map on the lookup
result covers both); being a total function into Option, it never fails
the evaluation. -/
theorem resolver_boundary
    (loadInstructionAt : Nat → Option Instruction) (k : Nat) (hk : 0 < k) :
    prev_program_id (some 0) loadInstructionAt = none ∧
    prev_program_id none loadInstructionAt = none ∧
    prev_program_id (some k) loadInstructionAt =
      Option.map Instruction.program_id (loadInstructionAt (k - 1)) := by
  refine ⟨rfl, rfl, ?_⟩
  have hk0 : k ≠ 0 := Nat.pos_iff_ne_zero.mp hk
  simp only [prev_program_id, hk0, if_false]
  cases loadInstructionAt (k - 1) <;> simp

theorem resolver_boundary_witness :
    prev_program_id (some 0) exampleLog = none ∧
    prev_program_id none exampleLog = none ∧
    prev_program_id (some 1) exampleLog =
      Option.map Instruction.program_id (exampleLog 0) :=
  resolver_boundary exampleLog 1 (by decide)

/-- C9: the verdict never depends on the transfer amount — with every
other input fixed, evaluating at any two amounts yields the same
verdict. -/
theorem amount_never_inspected
    (policy : Policy) (unlock : Unlock) (exempt_from exempt_to : Exempt)
    (allowed_program : AllowedProgram) (pool_vault : PoolVault)
    (src dst : Pubkey) (clock : Clock) (caller : Option Pubkey)
    (a1 a2 : Nat) :
    handler policy unlock exempt_from exempt_to allowed_program pool_vault
      src dst clock caller a1 =
    handler policy unlock exempt_from exempt_to allowed_program pool_vault
      src dst clock caller a2 := rfl

/-- C10: on every input combination the decision procedure returns exactly
one of the four outcomes Allow, Reject(Paused), Reject(SellsDisabled),
Reject(ProgramNotAllowed); there is no other error and no indeterminate
result. -/
theorem verdict_exhaustive
    (policy : Policy) (unlock : Unlock) (exempt_from exempt_to : Exempt)
    (allowed_program : AllowedProgram) (pool_vault : PoolVault)
    (src dst : Pubkey) (clock : Clock) (caller : Option Pubkey)
    (amount : Nat) :
    handler policy unlock exempt_from exempt_to allowed_program pool_vault
      src dst clock caller amount = Verdict.ok ∨
    handler policy unlock exempt_from exempt_to allowed_program pool_vault
      src dst clock caller amount = Verdict.err ErrorCode.Paused ∨
    handler policy unlock exempt_from exempt_to allowed_program pool_vault
      src dst clock caller amount = Verdict.err ErrorCode.SellsDisabled ∨
    handler policy unlock exempt_from exempt_to allowed_program pool_vault
      src dst clock caller amount =
      Verdict.err ErrorCode.ProgramNotAllowed := by
  rcases h : handler policy unlock exempt_from exempt_to allowed_program
      pool_vault src dst clock caller amount with _ | e
  · exact Or.inl rfl
  · cases e
    · exact Or.inr (Or.inl rfl)
    · exact Or.inr (Or.inr (Or.inl rfl))
    · exact Or.inr (Or.inr (Or.inr rfl))

end MindTransferHook
